import Mathlib

/-!
Shallow embedding of `src/main.py` (Stockholm Bus Line 1 Countdown).

The embedding covers the pieces of the program that the verified claims
are about:

* the configuration constants `SL_API_CONFIG` (lines 59-67);
* `BusDataFetcher.process_departure_data` (lines 116-175), split here into
  its successive stages (line filter, canonical record construction, stable
  sort, per-destination grouping with cap, backfill, snapshot assembly);
* `BusDataFetcher.get_mock_data` (lines 177-227);
* `BusDataFetcher.fetch_departures` (lines 82-114), as a function of the
  outcome of each source in the fallback chain;
* `ConnectionManager.broadcast` (lines 47-54), with Python's list-iterator
  semantics (index-based iteration over a list that the loop body mutates);
* the global cache update performed by `update_bus_data` (lines 233-254).

Modelling conventions:

* Python strings are Lean `String`s; Python string comparison (used by
  `list.sort(key=...)`) is lexicographic by code point and is modelled by
  the executable `strLeB` below; `str.lower()` is modelled per character
  by `Char.toLower`, and the substring test `a in b` by `listContainsSub`.
* ISO-8601 timestamps produced by `datetime.isoformat()` are modelled as
  the fixed-width decimal rendering `isoTime` of an abstract minute count;
  like ISO-8601 strings of a common format, this rendering is injective.
  No theorem below depends on any further property of the rendering.
* JSON field access `dep.get(k)` yields `Option` values: `none` models a
  missing key or JSON `null`.  Field values are typed per the provider
  contract (strings).  A list entry that is not a JSON object (for example
  a `null` inside the `departures` array) makes `dep.get` raise
  `AttributeError` in the loop at line 121, which the `try`/`except` of
  `process_departure_data` turns into the mock-data fallback; such an
  entry is modelled by the constructor `RawEntry.nonObj`.
* `fetch_departures` performs network I/O; it is modelled as a function of
  the outcome of each of the four sources (direct call plus the three CORS
  proxies), where `none` stands for any failed attempt (network error,
  non-200 status, unparsable body) and `some rd` for an HTTP 200 response
  whose body parsed to the raw data `rd`.
-/

namespace BusApp

/-- SL_API_CONFIG["bus_line"] (line 62 of the source). -/
def bus_line : String := "1"

/-- SL_API_CONFIG["departures_per_destination"] (line 64): per-group cap. -/
def departures_per_destination : Nat := 2

/-- SL_API_CONFIG["target_destinations"] (line 66). -/
def target_destinations : List String := ["Fridhemsplan", "Stora Essingen"]

/-- The hard-coded minimum total used by the backfill step
(`if len(final_departures) < 4`, lines 159 and 163 of the source). -/
def minimum_total : Nat := 4

/-- The default destination string `"Okänd destination"` (line 131). -/
def default_destination : String := "Okänd destination"

/-- Lexicographic comparison of character lists by code point, the order
Python uses when comparing strings. -/
def lexLeB : List Char → List Char → Bool
  | [], _ => true
  | _ :: _, [] => false
  | a :: as, b :: bs =>
    if a.toNat < b.toNat then true
    else if b.toNat < a.toNat then false
    else lexLeB as bs

/-- Python string `<=`, lexicographic by code point. -/
def strLeB (a b : String) : Bool := lexLeB a.toList b.toList

/-- Python substring containment `needle in hay`. -/
def listContainsSub (hay needle : List Char) : Bool :=
  match hay with
  | [] => needle.isEmpty
  | c :: t => needle.isPrefixOf (c :: t) || listContainsSub t needle

/-- Fixed-width decimal rendering of an abstract minute count, modelling
`datetime.isoformat()` output (an injective, fixed-width rendering). -/
def isoTime (t : Nat) : String :=
  String.mk (List.replicate (12 - (Nat.toDigits 10 t).length) '0' ++ Nat.toDigits 10 t)

/-- The JSON value of a record's `line` field: either a plain value
(rendered with `str()` at line 126) or an object whose `designation`
field is read with default `""` (line 124). -/
inductive LineVal where
  | str (s : String)
  | obj (designation : Option String)
deriving DecidableEq

/-- One raw provider record inside the `departures` array, with the five
fields `process_departure_data` reads.  `none` models a missing key or a
JSON `null` value. -/
structure RawRec where
  line : LineVal
  destination : Option String
  expected : Option String
  planned : Option String
  direction : Option String
deriving DecidableEq

/-- One entry of the raw `departures` array: either a JSON object (a
record) or a non-object entry (for example `null`), on which the
attribute access `dep.get` at line 122 raises `AttributeError`. -/
inductive RawEntry where
  | record (r : RawRec)
  | nonObj
deriving DecidableEq

/-- The raw payload handed to `process_departure_data`: either a value
with no usable `departures` list (a falsy value, or a dict without a
`departures` key, lines 120), or a dict with a `departures` array. -/
inductive RawData where
  | empty
  | payload (entries : List RawEntry)
deriving DecidableEq

/-- The `departures` array of a payload (empty when absent). -/
def entriesOf : RawData → List RawEntry
  | .empty => []
  | .payload es => es

/-- The record held by an entry, if the entry is a JSON object. -/
def isGoodEntry : RawEntry → Option RawRec
  | .record r => some r
  | .nonObj => none

/-- Whether the payload contains a non-object entry, in which case the
loop at lines 121-136 raises and the `except` at line 173 returns the
mock data instead. -/
def hasBadEntry (rd : RawData) : Bool :=
  (entriesOf rd).any fun e => (isGoodEntry e).isNone

/-- All records of the payload (meaningful when `hasBadEntry` is false). -/
def recordsOf (rd : RawData) : List RawRec :=
  (entriesOf rd).filterMap isGoodEntry

/-- Lines 122-126: the line designation extracted from the `line` field. -/
def lineDesignation : LineVal → String
  | .str s => s
  | .obj d => d.getD ""

/-- One canonical departure record (the dict built at lines 129-135). -/
structure Departure where
  line : String
  destination : String
  expected_time : Option String
  direction : String
  real_time : Bool
deriving DecidableEq

/-- Python `a or b` on two optional strings: `a` when it is truthy (present
and non-empty), else `b`.  This is the exact semantics of
`dep.get("expected") or dep.get("planned")` at line 132. -/
def pyOr (a b : Option String) : Option String :=
  match a with
  | none => b
  | some s => if s = "" then b else some s

/-- Lines 129-135: the canonical departure built from a raw record. -/
def toDep (r : RawRec) : Departure :=
  { line := lineDesignation r.line
    destination := r.destination.getD default_destination
    expected_time := pyOr r.expected r.planned
    direction := r.direction.getD ""
    real_time := r.expected.isSome }

/-- The sort key of line 139: `x["expected_time"] or ""`. -/
def sortKey (d : Departure) : String :=
  d.expected_time.getD ""

/-- The ordering on departures induced by the sort key (the comparison the
stable sort of line 139 performs). -/
def keyLe (a b : Departure) : Prop :=
  strLeB (sortKey a) (sortKey b) = true

instance : DecidableRel keyLe := fun a b =>
  inferInstanceAs (Decidable (strLeB (sortKey a) (sortKey b) = true))

/-- Lines 121-136: `all_departures`, the records surviving the line filter,
mapped to canonical departures. -/
def all_departures (rd : RawData) : List Departure :=
  ((recordsOf rd).filter fun r => lineDesignation r.line == bus_line).map toDep

/-- Line 139: `all_departures.sort(key=lambda x: x["expected_time"] or "")`.
Python's sort is stable, so it equals insertion sort by the key order. -/
def sorted_departures (rd : RawData) : List Departure :=
  List.insertionSort keyLe (all_departures rd)

/-- Line 152: the case-insensitive substring test
`target_dest.lower() in dep["destination"].lower()`. -/
def destMatches (target : String) (d : Departure) : Bool :=
  listContainsSub (d.destination.toList.map Char.toLower)
    (target.toList.map Char.toLower)

/-- Lines 150-153: the capped group for one target destination. -/
def groupFor (rd : RawData) (target : String) : List Departure :=
  ((sorted_departures rd).filter (destMatches target)).take departures_per_destination

/-- Lines 146-155: `departures_by_destination`, in target order. -/
def departures_by_destination (rd : RawData) : List (String × List Departure) :=
  target_destinations.map fun t => (t, groupFor rd t)

/-- Lines 146-156: `final_departures` before backfill (the groups
concatenated in target order). -/
def cappedDepartures (rd : RawData) : List Departure :=
  (target_destinations.map (groupFor rd)).flatten

/-- Lines 160-162: the departures not yet included
(`dep not in final_departures`, value equality), in sorted order. -/
def remainingPool (rd : RawData) : List Departure :=
  (sorted_departures rd).filter fun d => !((cappedDepartures rd).contains d)

/-- Lines 158-164: the backfill segment appended when the capped total is
below the minimum. -/
def backfill (rd : RawData) : List Departure :=
  if (cappedDepartures rd).length < minimum_total then
    (remainingPool rd).take (minimum_total - (cappedDepartures rd).length)
  else []

/-- Lines 158-164: `final_departures` after backfill. -/
def finalDepartures (rd : RawData) : List Departure :=
  cappedDepartures rd ++ backfill rd

/-- The dict returned by `process_departure_data` (lines 166-172) and
`get_mock_data` (lines 221-227). -/
structure Output where
  departures : List Departure
  departures_by_destination : List (String × List Departure)
  last_updated : String
  error : Option String
  source : String
deriving DecidableEq

/-- Line 225: the fixed degradation message of the mock data. -/
def mock_error : String := "Using demonstration data - live API unavailable"

/-- BusDataFetcher.get_mock_data (lines 177-227): the fixed synthetic
dataset, two departures per destination with offsets of 4, 9, 12 and 22
minutes from `now`. -/
def get_mock_data (now : Nat) : Output :=
  let d1 : Departure :=
    { line := "1", destination := "Fridhemsplan"
      expected_time := some (isoTime (now + 4)), direction := "1", real_time := true }
  let d2 : Departure :=
    { line := "1", destination := "Fridhemsplan"
      expected_time := some (isoTime (now + 9)), direction := "1", real_time := false }
  let d3 : Departure :=
    { line := "1", destination := "Stora Essingen"
      expected_time := some (isoTime (now + 12)), direction := "2", real_time := true }
  let d4 : Departure :=
    { line := "1", destination := "Stora Essingen"
      expected_time := some (isoTime (now + 22)), direction := "2", real_time := false }
  { departures := [d1, d2, d3, d4]
    departures_by_destination := [("Fridhemsplan", [d1, d2]), ("Stora Essingen", [d3, d4])]
    last_updated := isoTime now
    error := some mock_error
    source := "mock_data" }

/-- BusDataFetcher.process_departure_data (lines 116-175).  A payload with
a non-object entry raises inside the `try`, and the `except` at lines
173-175 returns the mock data; otherwise the snapshot is assembled at
lines 166-172. -/
def process_departure_data (rd : RawData) (now : Nat) : Output :=
  if hasBadEntry rd then get_mock_data now
  else
    { departures := finalDepartures rd
      departures_by_destination := departures_by_destination rd
      last_updated := isoTime now
      error := none
      source := "real_api" }

/-- Lines 87-110: the first source of the chain (direct call, then the
three CORS proxies in order) that produced a parsed body. -/
def firstSource (direct p1 p2 p3 : Option RawData) : Option RawData :=
  match direct with
  | some rd => some rd
  | none =>
    match p1 with
    | some rd => some rd
    | none =>
      match p2 with
      | some rd => some rd
      | none => p3

/-- BusDataFetcher.fetch_departures (lines 82-114) as a function of the
outcome of each source: the first source that returns a parsed body wins
and its payload is processed; if all four fail, the mock data is returned
(lines 112-114). -/
def fetch_departures (direct p1 p2 p3 : Option RawData) (now : Nat) : Output :=
  match firstSource direct p1 p2 p3 with
  | some rd => process_departure_data rd now
  | none => get_mock_data now

/-- ConnectionManager.broadcast (lines 47-54), with Python's list-iterator
semantics: the `for` loop walks `active_connections` by index; yielding
the element at index `i` advances the iterator to `i + 1`; a failed send
removes the current connection from the list (`list.remove`, first
occurrence), shifting later elements one position down.  `fails c` models
`connection.send_text` raising for `c`.  The fuel argument bounds the
number of iterations; the loop runs at most `conns.length` times because
the index strictly increases and the list never grows.
Returns the final connection list and the connections that received the
message, in send order. -/
def broadcastGo (fails : Nat → Bool) : Nat → List Nat → Nat → List Nat × List Nat
  | 0, conns, _ => (conns, [])
  | fuel + 1, conns, i =>
    if h : i < conns.length then
      let c := conns.get ⟨i, h⟩
      if fails c then
        broadcastGo fails fuel (conns.erase c) (i + 1)
      else
        let p := broadcastGo fails fuel conns (i + 1)
        (p.1, c :: p.2)
    else (conns, [])

/-- ConnectionManager.broadcast on a registry, starting at index 0. -/
def broadcast (fails : Nat → Bool) (conns : List Nat) : List Nat × List Nat :=
  broadcastGo fails conns.length conns 0

/-- The global cache `bus_data_cache` (lines 24-30): `none` in
`last_updated` models the initial `None`, `none` in `source` models the
initially absent key. -/
structure Cache where
  departures : List Departure
  departures_by_destination : List (String × List Departure)
  last_updated : Option String
  error : Option String
  source : Option String
deriving DecidableEq

/-- Lines 24-30: the initial cache contents. -/
def initial_cache : Cache :=
  { departures := [], departures_by_destination := []
    last_updated := none, error := none, source := none }

/-- The cache state after `bus_data_cache.update(new_data)` with a complete
fetch result (lines 241-242, 267, 314): every key is overwritten. -/
def cacheOfOutput (o : Output) : Cache :=
  { departures := o.departures
    departures_by_destination := o.departures_by_destination
    last_updated := some o.last_updated
    error := o.error
    source := some o.source }

/-- One iteration outcome of the `update_bus_data` cycle (lines 235-254):
either `fetch_departures` returned a result, or the cycle raised with a
message `e`. -/
inductive CycleOutcome where
  | ok (o : Output)
  | failed (msg : String)
deriving DecidableEq

/-- The cache update performed by one cycle of `update_bus_data`: on
success the whole dict is overwritten (line 242); on failure only
`bus_data_cache["error"] = str(e)` runs (line 251). -/
def applyCycle (c : Cache) (r : CycleOutcome) : Cache :=
  match r with
  | .ok o => cacheOfOutput o
  | .failed e => { c with error := some e }

/-! Spec-side definitions, written from the specification's words, used to
compare the specified behaviour with the behaviour of the embedded code. -/

/-- Spec ordering for the `departures` list: "sorted by `expectedTime`
ascending with absent-time entries last" (spec section 8). -/
def absentLastLeB (a b : Departure) : Bool :=
  match a.expected_time, b.expected_time with
  | some x, some y => strLeB x y
  | some _, none => true
  | none, none => true
  | none, some _ => false

/-- Boolean pairwise check of a binary relation along a list. -/
def pairwiseB (f : Departure → Departure → Bool) : List Departure → Bool
  | [] => true
  | a :: t => (t.all (f a)) && pairwiseB f t

/-- Spec rule for `expectedTime`: "the provider's live estimate if present,
else its scheduled time, else absent" (spec section 3), reading "present"
as the field carrying a value. -/
def specExpectedTime (r : RawRec) : Option String :=
  match r.expected with
  | some s => some s
  | none => r.planned

/-! Concrete inputs used by witnesses and counterexamples. -/

/-- Shorthand for a well-formed line-1 record with a destination and an
optional live estimate. -/
def mkRec (dest : String) (t : Option String) : RawRec :=
  { line := .str "1", destination := some dest
    expected := t, planned := none, direction := none }

/-- Scenario payload of spec section 8: three departures toward
Fridhemsplan (keys `t2 < t5 < t9`) and one toward Stora Essingen
(key `t3`). -/
def rdScenario : RawData :=
  .payload [.record (mkRec "Fridhemsplan" (some "t2")),
            .record (mkRec "Fridhemsplan" (some "t5")),
            .record (mkRec "Fridhemsplan" (some "t9")),
            .record (mkRec "Stora Essingen" (some "t3"))]

/-- Payload with one absent-time departure toward Fridhemsplan and one
timed departure toward Stora Essingen. -/
def rdAbsent : RawData :=
  .payload [.record (mkRec "Fridhemsplan" none),
            .record (mkRec "Stora Essingen" (some "t1"))]

/-- Record whose destination contains both configured target names. -/
def dualRec : RawRec := mkRec "Fridhemsplan via Stora Essingen" (some "t4")

/-- Payload holding only the dual-destination record. -/
def rdDual : RawData := .payload [.record (mkRec "Fridhemsplan via Stora Essingen" (some "t1"))]

/-- The canonical departure of the single record of `rdDual`. -/
def dualDep : Departure := toDep (mkRec "Fridhemsplan via Stora Essingen" (some "t1"))

/-- Payload where three earlier Fridhemsplan departures fill that group's
cap before the dual-destination record is reached. -/
def rdCapCut : RawData :=
  .payload [.record (mkRec "Fridhemsplan" (some "t1")),
            .record (mkRec "Fridhemsplan" (some "t2")),
            .record (mkRec "Fridhemsplan" (some "t3")),
            .record dualRec]

/-- Payload whose single entry is not a JSON object (for example `null`),
so `process_departure_data` raises and falls back to the mock data. -/
def rdBad : RawData := .payload [.nonObj]

/-- Record whose `expected` field is present but holds the empty string. -/
def r_empty_expected : RawRec :=
  { line := .str "1", destination := some "Fridhemsplan"
    expected := some "", planned := some "t9", direction := none }

/-! Helper lemmas about the lexicographic comparison and the sort. -/

theorem lexLeB_refl (l : List Char) : lexLeB l l = true := by
  induction l with
  | nil => rfl
  | cons a t ih => simp [lexLeB, ih]

theorem lexLeB_total (as bs : List Char) : lexLeB as bs = true ∨ lexLeB bs as = true := by
  induction as generalizing bs with
  | nil => exact Or.inl rfl
  | cons a t ih =>
    cases bs with
    | nil => exact Or.inr rfl
    | cons b u =>
      rcases Nat.lt_trichotomy a.toNat b.toNat with h | h | h
      · left; simp [lexLeB, h]
      · simp only [lexLeB, h, Nat.lt_irrefl, if_false]
        exact ih u
      · right; simp [lexLeB, h]

theorem lexLeB_trans : ∀ {as bs cs : List Char},
    lexLeB as bs = true → lexLeB bs cs = true → lexLeB as cs = true := by
  intro as
  induction as with
  | nil => intro bs cs _ _; rfl
  | cons a t ih =>
    intro bs cs h1 h2
    cases bs with
    | nil => simp [lexLeB] at h1
    | cons b u =>
      cases cs with
      | nil => simp [lexLeB] at h2
      | cons c v =>
        rcases Nat.lt_trichotomy a.toNat b.toNat with hab | hab | hab
        · rcases Nat.lt_trichotomy b.toNat c.toNat with hbc | hbc | hbc
          · simp [lexLeB, Nat.lt_trans hab hbc]
          · simp [lexLeB, hbc ▸ hab]
          · exfalso; simp [lexLeB, Nat.lt_asymm hbc, hbc] at h2
        · simp only [lexLeB, hab, Nat.lt_irrefl, if_false] at h1
          rcases Nat.lt_trichotomy b.toNat c.toNat with hbc | hbc | hbc
          · simp [lexLeB, hab ▸ hbc]
          · have hac : a.toNat = c.toNat := hab.trans hbc
            simp only [lexLeB, hbc, Nat.lt_irrefl, if_false] at h2
            simp only [lexLeB, hac, Nat.lt_irrefl, if_false]
            exact ih h1 h2
          · exfalso; simp [lexLeB, Nat.lt_asymm hbc, hbc] at h2
        · exfalso; simp [lexLeB, Nat.lt_asymm hab, hab] at h1

instance : IsTotal Departure keyLe :=
  ⟨fun a b => lexLeB_total (sortKey a).toList (sortKey b).toList⟩

instance : IsTrans Departure keyLe :=
  ⟨fun _ _ _ h1 h2 => lexLeB_trans h1 h2⟩

theorem keyLe_of_sortKey_eq {a b : Departure} (h : sortKey b = sortKey a) : keyLe a b := by
  show strLeB (sortKey a) (sortKey b) = true
  rw [h]
  exact lexLeB_refl _

/-- The sorted pool is pairwise ordered by the sort key. -/
theorem sorted_departures_pairwise (rd : RawData) : (sorted_departures rd).Pairwise keyLe :=
  List.sorted_insertionSort keyLe (all_departures rd)

/-- Stability of one ordered insertion, expressed through filtering by an
arbitrary key value: the elements with a fixed key keep their relative
order, and the inserted element goes in front of the equal-key block only
when it is the inserted one. -/
theorem filter_key_orderedInsert (s : String) (a : Departure) (l : List Departure) :
    (List.orderedInsert keyLe a l).filter (fun d => decide (sortKey d = s))
      = if sortKey a = s then a :: l.filter (fun d => decide (sortKey d = s))
        else l.filter (fun d => decide (sortKey d = s)) := by
  induction l with
  | nil =>
    by_cases h : sortKey a = s <;> simp [List.orderedInsert, h]
  | cons b t ih =>
    by_cases hab : keyLe a b
    · rw [List.orderedInsert_of_le keyLe t hab]
      by_cases h : sortKey a = s <;> simp [List.filter_cons, h]
    · have hins : List.orderedInsert keyLe a (b :: t) = b :: List.orderedInsert keyLe a t := by
        simp [List.orderedInsert, hab]
      rw [hins]
      by_cases ha : sortKey a = s
      · have hb : ¬ sortKey b = s := fun hbs =>
          hab (keyLe_of_sortKey_eq (by rw [hbs, ha]))
        simp [List.filter_cons, hb, ih, ha]
      · simp [List.filter_cons, ih, ha]

/-- Stability of the sort of line 139: for every key value, the sorted
pool lists the departures with that key in their original provider
order. -/
theorem filter_key_insertionSort (s : String) (l : List Departure) :
    (List.insertionSort keyLe l).filter (fun d => decide (sortKey d = s))
      = l.filter (fun d => decide (sortKey d = s)) := by
  induction l with
  | nil => rfl
  | cons a t ih =>
    show (List.orderedInsert keyLe a (List.insertionSort keyLe t)).filter _ = _
    rw [filter_key_orderedInsert]
    by_cases h : sortKey a = s <;> simp [List.filter_cons, h, ih]

/-- Each capped group is an order-preserving sublist of the sorted pool. -/
theorem groupFor_sublist (rd : RawData) (t : String) :
    (groupFor rd t).Sublist (sorted_departures rd) :=
  (List.take_sublist _ _).trans (List.filter_sublist _)

/-- Membership in the groups mapping determines the group's contents. -/
theorem mem_groups {rd : RawData} {t : String} {l : List Departure}
    (hm : (t, l) ∈ departures_by_destination rd) :
    t ∈ target_destinations ∧ l = groupFor rd t := by
  rcases List.mem_map.mp hm with ⟨t', ht', heq⟩
  injection heq with h1 h2
  subst h1
  exact ⟨ht', h2.symm⟩

/-- The source tag of a processed payload. -/
theorem process_source (rd : RawData) (now : Nat) :
    (process_departure_data rd now).source
      = if hasBadEntry rd then "mock_data" else "real_api" := by
  by_cases h : hasBadEntry rd <;> simp [process_departure_data, get_mock_data, h]

/-- C3: with two registered subscribers where delivery to the first one
fails, `broadcast` removes the failing subscriber (leaving N-1 = 1
registered) but, because the list is mutated during iteration, the second
subscriber is skipped and never receives the message — contradicting the
claim that every subscriber other than the failing one receives the
Snapshot. -/
theorem broadcast_failure_eval :
    broadcast (fun c => c == 0) [0, 1] = ([1], []) := by decide

/-- C4 counterexample: the store state after a failed cycle depends on the
previous cache contents, so a cycle-failure update does not write all
Snapshot fields from one normalization result — the claim that every
store update replaces the Snapshot as a whole is false on the failure
path. -/
theorem store_update_counterexample :
    applyCycle initial_cache (.failed "boom")
      ≠ applyCycle (cacheOfOutput (get_mock_data 0)) (.failed "boom") := by decide

/-- C4 amended: a successful cycle (periodic or manual refresh) overwrites
every cache field from the fetched result, independently of the previous
cache state; a failed cycle overwrites only the `error` field and leaves
departures, groups, timestamp and source from the previous state, so a
reader can observe a mix of fields from two refresh outcomes. -/
theorem store_update_amended :
    (∀ (c₁ c₂ : Cache) (o : Output), applyCycle c₁ (.ok o) = applyCycle c₂ (.ok o))
    ∧ (∀ (c : Cache) (e : String), applyCycle c (.failed e) = { c with error := some e }) :=
  ⟨fun _ _ _ => rfl, fun _ _ => rfl⟩

/-- C5 counterexample: the direct source succeeds and delivers a payload
(whose departures array contains a non-object entry), yet the resulting
snapshot is tagged `mock_data` — so SYNTHETIC does not occur only when
all real sources failed. -/
theorem synthetic_source_counterexample :
    (fetch_departures (some rdBad) none none none 0).source = "mock_data"
    ∧ some rdBad ≠ (none : Option RawData) := by
  exact ⟨rfl, by decide⟩

/-- C5 amended: the snapshot is tagged `mock_data` exactly when either no
source produced a parsed body, or the first produced payload makes
normalization raise (it contains a non-object entry); whenever the first
delivered payload normalizes successfully the snapshot is tagged
`real_api`. -/
theorem synthetic_source_amended (direct p1 p2 p3 : Option RawData) (now : Nat) :
    (fetch_departures direct p1 p2 p3 now).source = "mock_data"
      ↔ firstSource direct p1 p2 p3 = none
        ∨ ∃ rd, firstSource direct p1 p2 p3 = some rd ∧ hasBadEntry rd = true := by
  cases hfs : firstSource direct p1 p2 p3 with
  | none => simp [fetch_departures, hfs, get_mock_data]
  | some rd =>
    have hne : ("real_api" : String) ≠ "mock_data" := by decide
    by_cases hb : hasBadEntry rd <;>
      simp [fetch_departures, hfs, process_departure_data, get_mock_data, hb, hne]

/-- C6: when the primary source and every fallback proxy fail, the fetcher
returns exactly the fixed synthetic dataset: source `mock_data`, the fixed
non-null degradation message, and two departures per configured
destination with staggered offsets of 4, 9, 12 and 22 minutes from the
given now. -/
theorem all_sources_fail_mock (now : Nat) :
    fetch_departures none none none none now = get_mock_data now
    ∧ (get_mock_data now).source = "mock_data"
    ∧ (get_mock_data now).error = some mock_error
    ∧ (get_mock_data now).departures.map (fun d => d.expected_time)
        = [some (isoTime (now + 4)), some (isoTime (now + 9)),
           some (isoTime (now + 12)), some (isoTime (now + 22))]
    ∧ (get_mock_data now).departures_by_destination.map (fun p => (p.1, p.2.length))
        = [("Fridhemsplan", 2), ("Stora Essingen", 2)] := by
  refine ⟨rfl, rfl, rfl, by simp [get_mock_data], by simp [get_mock_data]⟩

/-- C1 counterexample: a payload with an absent-time departure toward
Fridhemsplan and a timed one toward Stora Essingen produces a `departures`
list in which the absent-time entry comes before the timed one, because
the sort key maps absent times to the empty string, which sorts first —
the claimed ordering (ascending with absent-time entries after all timed
entries) is false of the code. -/
theorem departures_order_counterexample :
    pairwiseB absentLastLeB (process_departure_data rdAbsent 0).departures = false := by
  decide

/-- C1 amended: for every payload that normalizes successfully, the full
pool is stably sorted by the key `expected_time or ""` — absent-time
entries sort before all timed entries, and among equal keys the original
provider order is preserved (the filter equation below) — while the final
`departures` list is the concatenation of the capped per-destination
groups and the backfill segment, each of which is an order-preserving
sublist of that sorted pool; the concatenation itself is not globally
sorted in general. -/
theorem departures_order_amended (rd : RawData) (now : Nat) (h : hasBadEntry rd = false) :
    (sorted_departures rd).Pairwise keyLe
    ∧ (∀ s : String, (sorted_departures rd).filter (fun d => decide (sortKey d = s))
        = (all_departures rd).filter (fun d => decide (sortKey d = s)))
    ∧ (∀ t l, (t, l) ∈ (process_departure_data rd now).departures_by_destination →
        l.Sublist (sorted_departures rd))
    ∧ (process_departure_data rd now).departures = cappedDepartures rd ++ backfill rd
    ∧ (backfill rd).Sublist (sorted_departures rd) := by
  refine ⟨sorted_departures_pairwise rd, fun s => filter_key_insertionSort s _, ?_, ?_, ?_⟩
  · intro t l hm
    have hm' : (t, l) ∈ departures_by_destination rd := by
      simpa [process_departure_data, h] using hm
    rcases mem_groups hm' with ⟨-, rfl⟩
    exact groupFor_sublist rd t
  · simp [process_departure_data, h, finalDepartures]
  · by_cases hc : (cappedDepartures rd).length < minimum_total
    · simpa [backfill, hc] using
        ((List.take_sublist _ _).trans (List.filter_sublist _))
    · simp [backfill, hc]

/-- C1 witness: the amended theorem applied to the concrete scenario
payload. -/
theorem departures_order_amended_witness :
    (sorted_departures rdScenario).Pairwise keyLe
    ∧ (∀ s : String, (sorted_departures rdScenario).filter (fun d => decide (sortKey d = s))
        = (all_departures rdScenario).filter (fun d => decide (sortKey d = s)))
    ∧ (∀ t l, (t, l) ∈ (process_departure_data rdScenario 0).departures_by_destination →
        l.Sublist (sorted_departures rdScenario))
    ∧ (process_departure_data rdScenario 0).departures
        = cappedDepartures rdScenario ++ backfill rdScenario
    ∧ (backfill rdScenario).Sublist (sorted_departures rdScenario) :=
  departures_order_amended rdScenario 0 (by decide)

/-- C2: every group of the resulting snapshot has at most
`departures_per_destination = 2` entries, and the entries of each group
are in non-decreasing sort-key order (they are taken from the sorted
pool); on the mock-data path the groups also respect the cap. -/
theorem groups_capped :
    (∀ (rd : RawData) (now : Nat) (t : String) (l : List Departure),
        hasBadEntry rd = false →
        (t, l) ∈ (process_departure_data rd now).departures_by_destination →
        l.length ≤ departures_per_destination ∧ l.Pairwise keyLe)
    ∧ (∀ (now : Nat) (t : String) (l : List Departure),
        (t, l) ∈ (get_mock_data now).departures_by_destination →
        l.length ≤ departures_per_destination) := by
  constructor
  · intro rd now t l h hm
    have hm' : (t, l) ∈ departures_by_destination rd := by
      simpa [process_departure_data, h] using hm
    rcases mem_groups hm' with ⟨-, rfl⟩
    constructor
    · exact List.length_take_le _ _
    · exact (sorted_departures_pairwise rd).sublist (groupFor_sublist rd t)
  · intro now t l hm
    simp only [get_mock_data, List.mem_cons, List.not_mem_nil, or_false] at hm
    rcases hm with hm | hm <;>
      · injection hm with h1 h2
        subst h2
        simp [departures_per_destination]

/-- C2 witness: the theorem applied to the concrete scenario payload and
its Fridhemsplan group. -/
theorem groups_capped_witness :
    (toDep (mkRec "Fridhemsplan" (some "t2")) :: toDep (mkRec "Fridhemsplan" (some "t5")) :: []).length
        ≤ departures_per_destination
    ∧ (toDep (mkRec "Fridhemsplan" (some "t2")) :: toDep (mkRec "Fridhemsplan" (some "t5")) :: []).Pairwise keyLe :=
  groups_capped.1 rdScenario 0 "Fridhemsplan" _ (by decide) (by decide)

/-- C7: when the capped groups hold fewer than `minimum_total = 4`
departures, the final list is the capped concatenation extended with
not-yet-included departures taken in order from the sorted pool; the
number of backfilled items is exactly `min (4 - capped_total)
(number of remaining departures)`, and no backfill happens when the
capped total already reaches the minimum. -/
theorem backfill_exact (rd : RawData) (now : Nat) (h : hasBadEntry rd = false) :
    (process_departure_data rd now).departures = cappedDepartures rd ++ backfill rd
    ∧ backfill rd
        = (if (cappedDepartures rd).length < minimum_total then
            (remainingPool rd).take (minimum_total - (cappedDepartures rd).length)
          else [])
    ∧ ((cappedDepartures rd).length < minimum_total →
        (backfill rd).length
          = min (minimum_total - (cappedDepartures rd).length) (remainingPool rd).length)
    ∧ (minimum_total ≤ (cappedDepartures rd).length → backfill rd = [])
    ∧ (backfill rd).Sublist (remainingPool rd) := by
  refine ⟨by simp [process_departure_data, h, finalDepartures], rfl, ?_, ?_, ?_⟩
  · intro hc
    simp [backfill, hc, List.length_take]
  · intro hc
    simp [backfill, Nat.not_lt.mpr hc]
  · by_cases hc : (cappedDepartures rd).length < minimum_total
    · simpa [backfill, hc] using List.take_sublist _ (remainingPool rd)
    · simp [backfill, hc]

/-- C7 witness: the theorem applied to the scenario payload (three
Fridhemsplan departures and one Stora Essingen departure, capped total 3,
one backfilled item). -/
theorem backfill_exact_witness :
    (process_departure_data rdScenario 0).departures
      = cappedDepartures rdScenario ++ backfill rdScenario :=
  (backfill_exact rdScenario 0 (by decide)).1

/-- C8 counterexample: a record whose `expected` field is present but
empty. Python's `or` treats the empty string as absent, so the code
stores the planned time, while `expected is not None` still marks the
departure as real-time — the claimed field rule (expectedTime equals the
live estimate whenever it is present, and isRealTime true iff a live
estimate is present) cannot be read in a way that matches both fields. -/
theorem expected_time_counterexample :
    (toDep r_empty_expected).expected_time ≠ specExpectedTime r_empty_expected
    ∧ (toDep r_empty_expected).real_time = true := by decide

/-- C8 amended: for every record surviving the line filter, `expectedTime`
equals the live estimate when it is present and non-empty, and otherwise
equals the planned time verbatim (which may itself be absent); the
`isRealTime` flag is true iff the `expected` field is present, even when
it is empty. -/
theorem expected_time_amended :
    (∀ r : RawRec, (toDep r).real_time = r.expected.isSome)
    ∧ (∀ r : RawRec, r.expected = none → (toDep r).expected_time = r.planned)
    ∧ (∀ (r : RawRec) (s : String), r.expected = some s → s ≠ "" →
        (toDep r).expected_time = some s)
    ∧ (∀ r : RawRec, r.expected = some "" → (toDep r).expected_time = r.planned)
    ∧ (∀ rd : RawData, all_departures rd
        = ((recordsOf rd).filter fun r => lineDesignation r.line == bus_line).map toDep) := by
  refine ⟨fun r => rfl, ?_, ?_, ?_, fun rd => rfl⟩
  · intro r h; simp [toDep, pyOr, h]
  · intro r s h hs; simp [toDep, pyOr, h, hs]
  · intro r h; simp [toDep, pyOr, h]

/-- C8 witness: the amended field rule applied to a concrete record with a
non-empty live estimate. -/
theorem expected_time_amended_witness :
    (toDep (mkRec "Fridhemsplan" (some "t1"))).expected_time = some "t1" :=
  expected_time_amended.2.2.1 (mkRec "Fridhemsplan" (some "t1")) "t1" rfl (by decide)

/-- C9: normalization is a pure function of the payload and the clock —
processing the same payload twice with the same now yields identical
snapshots, and, for payloads that normalize successfully, every field
except the `last_updated` timestamp is independent of the clock. -/
theorem normalize_deterministic :
    (∀ (rd : RawData) (n₁ n₂ : Nat), n₁ = n₂ →
        process_departure_data rd n₁ = process_departure_data rd n₂)
    ∧ (∀ (rd : RawData) (n₁ n₂ : Nat), hasBadEntry rd = false →
        (process_departure_data rd n₁).departures = (process_departure_data rd n₂).departures
        ∧ (process_departure_data rd n₁).departures_by_destination
            = (process_departure_data rd n₂).departures_by_destination
        ∧ (process_departure_data rd n₁).error = (process_departure_data rd n₂).error
        ∧ (process_departure_data rd n₁).source = (process_departure_data rd n₂).source) := by
  constructor
  · intro rd n₁ n₂ h; rw [h]
  · intro rd n₁ n₂ h; simp [process_departure_data, h]

/-- C9 witness: the determinism theorem applied to the scenario payload
and two different clocks. -/
theorem normalize_deterministic_witness :
    (process_departure_data rdScenario 0).departures
      = (process_departure_data rdScenario 5).departures :=
  (normalize_deterministic.2 rdScenario 0 5 (by decide)).1

/-- C10 counterexample: the dual-destination departure ("Fridhemsplan via
Stora Essingen", key t4) matches the Fridhemsplan group but is not placed
in it, because three earlier Fridhemsplan departures already fill the
per-group cap of 2; it consequently appears only once in the final list —
the claim that a multi-matching departure lands in every matching group
and appears multiple times is false. -/
theorem grouping_substring_counterexample :
    destMatches "Fridhemsplan" (toDep dualRec) = true
    ∧ toDep dualRec ∉ groupFor rdCapCut "Fridhemsplan"
    ∧ toDep dualRec ∈ groupFor rdCapCut "Stora Essingen"
    ∧ (finalDepartures rdCapCut).count (toDep dualRec) = 1 := by decide

/-- C10 amended: group membership is decided by case-insensitive substring
containment of the configured target inside the departure's destination —
every departure placed in a group matches that group's target; a
departure matching no configured target is in no group and can enter the
final list only through the backfill segment; a departure whose
destination contains several target names is eligible for every matching
group and, when it falls within each group's cap, is placed in all of
them and appears that many times in the final list (concrete instance:
the single-record payload `rdDual`). -/
theorem grouping_substring_amended :
    (∀ (rd : RawData) (t : String) (l : List Departure),
        (t, l) ∈ departures_by_destination rd → ∀ d ∈ l, destMatches t d = true)
    ∧ (∀ (rd : RawData) (d : Departure),
        (∀ t ∈ target_destinations, destMatches t d = false) →
        d ∉ cappedDepartures rd ∧ (d ∈ finalDepartures rd → d ∈ backfill rd))
    ∧ (groupFor rdDual "Fridhemsplan" = [dualDep]
        ∧ groupFor rdDual "Stora Essingen" = [dualDep]
        ∧ (finalDepartures rdDual).count dualDep = 2) := by
  refine ⟨?_, ?_, by decide⟩
  · intro rd t l hm d hd
    rcases mem_groups hm with ⟨-, rfl⟩
    exact List.of_mem_filter (List.mem_of_mem_take hd)
  · intro rd d hall
    have hcap : d ∉ cappedDepartures rd := by
      intro hd
      rcases List.mem_flatten.mp hd with ⟨l, hl, hdl⟩
      rcases List.mem_map.mp hl with ⟨t, ht, rfl⟩
      have : destMatches t d = true :=
        List.of_mem_filter (List.mem_of_mem_take hdl)
      rw [hall t ht] at this
      exact Bool.false_ne_true this
    refine ⟨hcap, ?_⟩
    intro hd
    rcases List.mem_append.mp hd with hd | hd
    · exact absurd hd hcap
    · exact hd

/-- C10 witness: the amended membership-soundness part applied to the
dual-destination payload and its Fridhemsplan group. -/
theorem grouping_substring_amended_witness :
    destMatches "Fridhemsplan" dualDep = true :=
  grouping_substring_amended.1 rdDual "Fridhemsplan" [dualDep] (by decide) dualDep (by decide)

end BusApp
